import Mathlib

/-!
# Verification of mplWindow (src/mplWindow.py)

A shallow embedding of the tkinter/matplotlib plot-window widget in
`src/mplWindow.py`, together with proofs about its observable behavior.

The embedding models:
* the two modal dialogs (`textPrompt`, `limitPrompt`) as explicit state
  machines over their entry-field strings;
* the constructor `Plot.__init__` (fmt/label normalization, menu
  construction, the initial render) as an `Except`-valued computation,
  where Python exceptions (`AssertionError`, `IndexError`, ...) become
  `Except.error`;
* the render step `Plot.__plot__` as a function from the display
  configuration to the list of drawing calls issued plus the common
  post-processing record;
* numpy basic indexing (`data[i, j, :]`, `data[i, :]`, `shape[-2]`)
  with its bounds checks, and Python's `float()` builtin restricted to
  optionally-signed decimal literals.
-/

namespace MplWindow

/-- Numeric value of a list of decimal digit characters (most significant
first), as accumulated by positional evaluation. -/
def digitsToNat (l : List Char) : Nat :=
  l.foldl (fun a c => 10 * a + (c.toNat - 48)) 0

/-- Strip leading and trailing whitespace from a character list (the
whitespace stripping `float()` performs on its argument). -/
def stripSpaces (l : List Char) : List Char :=
  ((l.dropWhile Char.isWhitespace).reverse.dropWhile Char.isWhitespace).reverse

/-- Split a character list at the first `'.'`: returns the part before it
and, when a dot is present, the part after it (verbatim, so a second dot
survives into the tail and fails the later digit check). -/
def splitDot : List Char → List Char × Option (List Char)
  | [] => ([], none)
  | '.' :: rest => ([], some rest)
  | c :: rest =>
    let p := splitDot rest
    (c :: p.1, p.2)

/-- Model of Python's builtin `float()` as used by the dialogs, restricted
to optionally-signed decimal literals (digits with an optional single
decimal point, surrounding whitespace stripped).  Returns `none` where
`float()` raises `ValueError`. -/
def pyFloat? (s : String) : Option ℚ :=
  let t := stripSpaces s.toList
  let neg : Bool :=
    match t with
    | '-' :: _ => true
    | _ => false
  let body : List Char :=
    match t with
    | '-' :: rest => rest
    | '+' :: rest => rest
    | l => l
  let val? : Option ℚ :=
    match splitDot body with
    | (al, none) =>
      if al.isEmpty then none
      else if al.all Char.isDigit then some (digitsToNat al : ℚ)
      else none
    | (al, some bl) =>
      if al.isEmpty && bl.isEmpty then none
      else if al.all Char.isDigit && bl.all Char.isDigit then
        some ((digitsToNat al : ℚ) + (digitsToNat bl : ℚ) / (10 : ℚ) ^ bl.length)
      else none
  match val? with
  | none => none
  | some q => some (if neg then -q else q)

/-! ## The numeric-range dialog (`limitPrompt`) -/

/-- State of a `limitPrompt` dialog: whether the window is still open,
the published `result` member, and the two entry-field strings
(`self.var1`, `self.var2`). -/
structure LimitDialog where
  isOpen : Bool
  result : Option (ℚ × ℚ)
  var1 : String
  var2 : String
deriving DecidableEq

/-- `limitPrompt.__init__`: the dialog opens with no result and the two
entries pre-filled (here abstracted to arbitrary strings). -/
def limitInit (v1 v2 : String) : LimitDialog :=
  { isOpen := true, result := none, var1 := v1, var2 := v2 }

/-- `limitPrompt.__validate__`: both entries must parse with `float()` and
the second must strictly exceed the first (`temp2 > temp1`). -/
def limitValidate (d : LimitDialog) : Bool :=
  match pyFloat? d.var1, pyFloat? d.var2 with
  | some t1, some t2 => decide (t1 < t2)
  | _, _ => false

/-- `limitPrompt.__apply__`: store `(float(var1), float(var2))` as the
result (only ever called after successful validation). -/
def limitApply (d : LimitDialog) : LimitDialog :=
  match pyFloat? d.var1, pyFloat? d.var2 with
  | some t1, some t2 => { d with result := some (t1, t2) }
  | _, _ => d

/-- `limitPrompt.__ok__`: on invalid input return with the dialog
unchanged (still open, no result); on valid input apply the result,
withdraw and destroy the window. -/
def limitOk (d : LimitDialog) : LimitDialog :=
  if limitValidate d then { limitApply d with isOpen := false } else d

/-- `limitPrompt.__cancel__` (Cancel button, Escape, window close):
destroy the window without touching the result. -/
def limitCancel (d : LimitDialog) : LimitDialog := { d with isOpen := false }

/-! ## The text-and-font-size dialog (`textPrompt`) -/

/-- State of a `textPrompt` dialog: open flag, published result
`(text, fontSize)` (the second component is `none` when the font-size
field was suppressed), the two entry strings and the `getFontSize`
constructor flag. -/
structure TextDialog where
  isOpen : Bool
  result : Option (String × Option ℚ)
  var : String
  fontVar : String
  getFontSize : Bool
deriving DecidableEq

/-- `textPrompt.__init__` with given initial entry contents. -/
def textInit (v f : String) (g : Bool) : TextDialog :=
  { isOpen := true, result := none, var := v, fontVar := f, getFontSize := g }

/-- `textPrompt.__validate__`: when the font-size field was requested it
must parse with `float()`; otherwise always valid. -/
def textValidate (d : TextDialog) : Bool :=
  if d.getFontSize then (pyFloat? d.fontVar).isSome else true

/-- `textPrompt.__apply__`: store `(self.var.get(), float(self.fontVar.get()))`,
or `(self.var.get(), None)` when the font-size field was suppressed. -/
def textApply (d : TextDialog) : TextDialog :=
  if d.getFontSize then
    match pyFloat? d.fontVar with
    | some q => { d with result := some (d.var, some q) }
    | none => d
  else { d with result := some (d.var, none) }

/-- `textPrompt.__ok__`: invalid input leaves the dialog unchanged;
valid input applies the result and destroys the window. -/
def textOk (d : TextDialog) : TextDialog :=
  if textValidate d then { textApply d with isOpen := false } else d

/-- `textPrompt.__cancel__`: destroy the window without setting a result. -/
def textCancel (d : TextDialog) : TextDialog := { d with isOpen := false }

/-! ## Claims C1 and C2: dialog confirmation semantics -/

/-- Claim C1: for the numeric-range dialog, confirming succeeds exactly
when both entries parse as numbers and the max strictly exceeds the min;
on success the result is the parsed pair and the dialog closes; on any
validation failure (non-numeric entry or non-increasing range) the
dialog is left open and unchanged, with the result still absent.
Cancelling closes without a result. -/
theorem limitPrompt_confirm_spec (d : LimitDialog)
    (hres : d.result = none) (ho : d.isOpen = true) :
    ((limitOk d).result ≠ none ↔
      ∃ a b, pyFloat? d.var1 = some a ∧ pyFloat? d.var2 = some b ∧ a < b) ∧
    (∀ a b, pyFloat? d.var1 = some a → pyFloat? d.var2 = some b → a < b →
      limitOk d = { d with result := some (a, b), isOpen := false }) ∧
    (∀ a b, pyFloat? d.var1 = some a → pyFloat? d.var2 = some b → ¬ a < b →
      limitOk d = d) ∧
    (pyFloat? d.var1 = none → limitOk d = d) ∧
    (pyFloat? d.var2 = none → limitOk d = d) ∧
    ((limitCancel d).result = none ∧ (limitCancel d).isOpen = false) := by
  have hval : ∀ a b, pyFloat? d.var1 = some a → pyFloat? d.var2 = some b →
      limitValidate d = decide (a < b) := by
    intro a b ha hb
    unfold limitValidate
    rw [ha, hb]
  refine ⟨?_, ?_, ?_, ?_, ?_, by simp [limitCancel, hres], rfl⟩
  · constructor
    · intro h
      cases h1 : pyFloat? d.var1 with
      | none =>
        unfold limitOk limitValidate at h
        rw [h1] at h
        simp [hres] at h
      | some a =>
        cases h2 : pyFloat? d.var2 with
        | none =>
          unfold limitOk limitValidate at h
          rw [h1, h2] at h
          simp [hres] at h
        | some b =>
          by_cases hlt : a < b
          · exact ⟨a, b, rfl, rfl, hlt⟩
          · unfold limitOk at h
            rw [hval a b h1 h2] at h
            simp [hlt, hres] at h
    · rintro ⟨a, b, ha, hb, hab⟩
      unfold limitOk limitApply
      rw [hval a b ha hb, ha, hb]
      simp [hab]
  · intro a b ha hb hab
    unfold limitOk limitApply
    rw [hval a b ha hb, ha, hb]
    simp [hab]
  · intro a b ha hb hab
    unfold limitOk
    rw [hval a b ha hb]
    simp [hab]
  · intro h1
    unfold limitOk limitValidate
    rw [h1]
    simp
  · intro h2
    unfold limitOk limitValidate
    rw [h2]
    cases pyFloat? d.var1 <;> simp

/-- Witness for C1 at the concrete inputs of the spec: entries "2"/"5"
confirm to result (2, 5) with the dialog closed, and entries "5"/"2"
(a non-increasing range) are rejected, leaving the dialog open and the
result absent. -/
theorem limitPrompt_confirm_witness :
    limitOk (limitInit "2" "5") =
      { isOpen := false, result := some ((2 : ℚ), (5 : ℚ)), var1 := "2", var2 := "5" } ∧
    limitOk (limitInit "5" "2") = limitInit "5" "2" := by
  have h1 := limitPrompt_confirm_spec (limitInit "2" "5") rfl rfl
  have h2 := limitPrompt_confirm_spec (limitInit "5" "2") rfl rfl
  exact ⟨h1.2.1 2 5 (by decide) (by decide) (by norm_num),
         h2.2.2.1 5 2 (by decide) (by decide) (by norm_num)⟩

/-- Claim C2: for the text dialog with the font-size field requested,
confirming succeeds exactly when the font-size entry parses as a number;
on success the result is `(text, fontSize)` and the dialog closes; on a
non-numeric font size the dialog is left open and unchanged with no
result; cancelling (or closing the window) closes without a result. -/
theorem textPrompt_confirm_spec (d : TextDialog)
    (hg : d.getFontSize = true) (hres : d.result = none) (ho : d.isOpen = true) :
    ((textOk d).result ≠ none ↔ (pyFloat? d.fontVar).isSome = true) ∧
    (∀ q, pyFloat? d.fontVar = some q →
      textOk d = { d with result := some (d.var, some q), isOpen := false }) ∧
    (pyFloat? d.fontVar = none → textOk d = d) ∧
    ((textCancel d).result = none ∧ (textCancel d).isOpen = false) := by
  refine ⟨?_, ?_, ?_, by simp [textCancel, hres], rfl⟩
  · unfold textOk textValidate textApply
    cases h : pyFloat? d.fontVar with
    | none => simp [hg, h, hres]
    | some q => simp [hg, h]
  · intro q h
    unfold textOk textValidate textApply
    simp [hg, h]
  · intro h
    unfold textOk textValidate
    simp [hg, h]

/-- Witness for C2 at the spec's concrete inputs: text "Energy (keV)"
with font size "12" confirms to ("Energy (keV)", 12) and closes; font
size "abc" is rejected, leaving the dialog open with no result; cancel
yields no result. -/
theorem textPrompt_confirm_witness :
    textOk (textInit "Energy (keV)" "12" true) =
      { isOpen := false, result := some ("Energy (keV)", some (12 : ℚ)),
        var := "Energy (keV)", fontVar := "12", getFontSize := true } ∧
    textOk (textInit "Energy (keV)" "abc" true) = textInit "Energy (keV)" "abc" true ∧
    (textCancel (textInit "Energy (keV)" "abc" true)).result = none := by
  have h1 := textPrompt_confirm_spec (textInit "Energy (keV)" "12" true) rfl rfl rfl
  have h2 := textPrompt_confirm_spec (textInit "Energy (keV)" "abc" true) rfl rfl rfl
  exact ⟨h1.2.1 12 (by decide), h2.2.2.1 (by decide), h2.2.2.2.1⟩

/-! ## The plot window (`Plot`)

Python exceptions are modelled by `PyErr`; `Except PyErr` replaces
Python's exception propagation.  The numeric data array is abstracted by
its shape (a list of dimension sizes): the repository's code never reads
the data's values, only its shape, and the slices it passes to the
matplotlib calls are recorded symbolically. -/

/-- The Python exceptions the embedded code can raise or catch. -/
inductive PyErr where
  | assertionError
  | indexError
  | attributeError
  | valueError
  | otherError
deriving DecidableEq

/-- Python list/tuple indexing `l[i]` for a non-negative index:
out-of-range raises `IndexError`. -/
def pyGet {α : Type} (l : List α) (i : Nat) : Except PyErr α :=
  match l.get? i with
  | some v => Except.ok v
  | none => Except.error PyErr.indexError

/-- Reading an attribute that may never have been assigned (`self.labels`
is only set when the constructor argument was `None`/`str`/`list`/`tuple`):
absence raises `AttributeError`. -/
def pyAttr {α : Type} : Option α → Except PyErr α
  | some v => Except.ok v
  | none => Except.error PyErr.attributeError

/-- `shape[-2]`, the second-to-last dimension of a numpy shape tuple:
present exactly when the rank is at least 2. -/
def shapeNeg2 : List Nat → Option Nat
  | [] => none
  | [_] => none
  | [x, _] => some x
  | _ :: xs => shapeNeg2 xs

/-- `shape[-2]` as a Python expression: raises `IndexError` on rank < 2. -/
def pyIdxNeg2 (shape : List Nat) : Except PyErr Nat :=
  match shapeNeg2 shape with
  | some v => Except.ok v
  | none => Except.error PyErr.indexError

/-- The symbolic data slices the render step passes to matplotlib. -/
inductive Slice where
  /-- `data[i, :]` (or `data[i]` on higher-rank data). -/
  | row (i : Nat)
  /-- `data[i, j, :]`. -/
  | sub (i j : Nat)
  /-- the whole array `data` (1-D histogram). -/
  | whole
deriving DecidableEq

/-- numpy basic indexing `data[i, :]`: the index into axis 0 must be in
bounds, else `IndexError`. -/
def sliceRow (shape : List Nat) (i : Nat) : Except PyErr Slice :=
  match pyGet shape 0 with
  | Except.error e => Except.error e
  | Except.ok s0 =>
    if i < s0 then Except.ok (Slice.row i) else Except.error PyErr.indexError

/-- numpy basic indexing `data[i, j, :]`: the indexes into axes 0 and 1
must be in bounds, else `IndexError`. -/
def sliceSub (shape : List Nat) (i j : Nat) : Except PyErr Slice :=
  match pyGet shape 0 with
  | Except.error e => Except.error e
  | Except.ok s0 =>
    if i < s0 then
      match pyGet shape 1 with
      | Except.error e => Except.error e
      | Except.ok s1 =>
        if j < s1 then Except.ok (Slice.sub i j) else Except.error PyErr.indexError
    else Except.error PyErr.indexError

/-- One drawing call issued by `Plot.__plot__`, with the data slices, the
optional format string and the label it passes. -/
inductive DrawCall where
  | plotC (x y : Slice) (fmt : Option String) (label : String)
  | errorbarC (x y : Slice) (fmt : Option String) (label : String)
  | barC (x y : Slice) (label : String)
  | histC (d : Slice) (label : String)
deriving DecidableEq

/-- The display configuration of a plot window: the stored data shape,
the normalized `fmt` and `labels` fields, and all the menu-mutable
fields read by `Plot.__plot__`.  Defaults are the constructor defaults. -/
structure Config where
  shape : List Nat := []
  fmt : Option (List String) := none
  labels : List String := []
  plotType : Nat := 0
  xlim : Option (ℚ × ℚ) := none
  ylim : Option (ℚ × ℚ) := none
  logX : Bool := false
  logY : Bool := false
  legend : Bool := false
  legendLoc : Nat := 1
  legendFontSize : Nat := 10
  xlabel : String := ""
  xlabelSize : ℚ := 12
  ylabel : String := ""
  ylabelSize : ℚ := 12
  title : String := ""
  titleSize : ℚ := 14
  showToolbar : Bool := false
deriving DecidableEq

/-- Axis scale selected by the render step. -/
inductive Scale where
  | log
  | linear
deriving DecidableEq

/-- Lines 249-256 of `__plot__`: the axis scale is `'log'` exactly when
the log flag is set and `'linear'` exactly when it is cleared. -/
def appliedScale (flag : Bool) : Scale :=
  if flag then Scale.log else Scale.linear

/-- Toggling a log-scale checkbutton flips the underlying boolean. -/
def toggleLog (b : Bool) : Bool := !b

/-- Ascending loop `for i in range(...)` starting at `i` for `k` more
iterations, collecting one drawing call per iteration and propagating
the first exception. -/
def loopN (f : Nat → Except PyErr DrawCall) : Nat → Nat → Except PyErr (List DrawCall)
  | _, 0 => Except.ok []
  | i, k + 1 =>
    match f i with
    | Except.error e => Except.error e
    | Except.ok c =>
      match loopN f (i + 1) k with
      | Except.error e => Except.error e
      | Except.ok rest => Except.ok (c :: rest)

/-- One iteration of the `TYPE_PLOT` multi-series loop:
`self.ax.plot(self.data[i, 0, :], self.data[i, 1, :], [self.fmt[i],] label=self.labels[i])`. -/
def seriesCallStd (shape : List Nat) (fmt : Option (List String)) (labels : List String)
    (i : Nat) : Except PyErr DrawCall :=
  match sliceSub shape i 0 with
  | Except.error e => Except.error e
  | Except.ok x =>
    match sliceSub shape i 1 with
    | Except.error e => Except.error e
    | Except.ok y =>
      match fmt with
      | some fl =>
        match pyGet fl i with
        | Except.error e => Except.error e
        | Except.ok fi =>
          match pyGet labels i with
          | Except.error e => Except.error e
          | Except.ok li => Except.ok (DrawCall.plotC x y (some fi) li)
      | none =>
        match pyGet labels i with
        | Except.error e => Except.error e
        | Except.ok li => Except.ok (DrawCall.plotC x y none li)

/-- The `TYPE_PLOT` branch of `__plot__` (lines 178-194): assert
`shape[-2] == 2`, then draw the single series for rank-2 data or loop
over `shape[0]` series otherwise. -/
def plotCallsStd (shape : List Nat) (fmt : Option (List String)) (labels : List String) :
    Except PyErr (List DrawCall) :=
  match pyIdxNeg2 shape with
  | Except.error e => Except.error e
  | Except.ok d2 =>
    if d2 = 2 then
      if shape.length = 2 then
        match sliceRow shape 0 with
        | Except.error e => Except.error e
        | Except.ok x =>
          match sliceRow shape 1 with
          | Except.error e => Except.error e
          | Except.ok y =>
            match fmt with
            | some fl =>
              match pyGet fl 0 with
              | Except.error e => Except.error e
              | Except.ok f0 =>
                match pyGet labels 0 with
                | Except.error e => Except.error e
                | Except.ok l0 => Except.ok [DrawCall.plotC x y (some f0) l0]
            | none =>
              match pyGet labels 0 with
              | Except.error e => Except.error e
              | Except.ok l0 => Except.ok [DrawCall.plotC x y none l0]
      else
        match pyGet shape 0 with
        | Except.error e => Except.error e
        | Except.ok n => loopN (seriesCallStd shape fmt labels) 0 n
    else Except.error PyErr.assertionError

/-- One iteration of the `TYPE_ERRORBAR` multi-series loop (lines 208-212).
When a format list is present the source passes `self.data[0, :]` and
`self.data[1, :]` — the loop index `i` is NOT used in the data slices
(only in `fmt[i]` and `labels[i]`); the `else` branch correctly uses
`self.data[i, 0, :]` and `self.data[i, 1, :]`. -/
def seriesCallErr (shape : List Nat) (fmt : Option (List String)) (labels : List String)
    (i : Nat) : Except PyErr DrawCall :=
  match fmt with
  | some fl =>
    match sliceRow shape 0 with
    | Except.error e => Except.error e
    | Except.ok x =>
      match sliceRow shape 1 with
      | Except.error e => Except.error e
      | Except.ok y =>
        match pyGet fl i with
        | Except.error e => Except.error e
        | Except.ok fi =>
          match pyGet labels i with
          | Except.error e => Except.error e
          | Except.ok li => Except.ok (DrawCall.errorbarC x y (some fi) li)
  | none =>
    match sliceSub shape i 0 with
    | Except.error e => Except.error e
    | Except.ok x =>
      match sliceSub shape i 1 with
      | Except.error e => Except.error e
      | Except.ok y =>
        match pyGet labels i with
        | Except.error e => Except.error e
        | Except.ok li => Except.ok (DrawCall.errorbarC x y none li)

/-- The `TYPE_ERRORBAR` branch of `__plot__` (lines 196-212). -/
def plotCallsErr (shape : List Nat) (fmt : Option (List String)) (labels : List String) :
    Except PyErr (List DrawCall) :=
  match pyIdxNeg2 shape with
  | Except.error e => Except.error e
  | Except.ok d2 =>
    if d2 = 2 then
      if shape.length = 2 then
        match sliceRow shape 0 with
        | Except.error e => Except.error e
        | Except.ok x =>
          match sliceRow shape 1 with
          | Except.error e => Except.error e
          | Except.ok y =>
            match fmt with
            | some fl =>
              match pyGet fl 0 with
              | Except.error e => Except.error e
              | Except.ok f0 =>
                match pyGet labels 0 with
                | Except.error e => Except.error e
                | Except.ok l0 => Except.ok [DrawCall.errorbarC x y (some f0) l0]
            | none =>
              match pyGet labels 0 with
              | Except.error e => Except.error e
              | Except.ok l0 => Except.ok [DrawCall.errorbarC x y none l0]
      else
        match pyGet shape 0 with
        | Except.error e => Except.error e
        | Except.ok n => loopN (seriesCallErr shape fmt labels) 0 n
    else Except.error PyErr.assertionError

/-- One iteration of the `TYPE_BAR` multi-series loop (line 224). -/
def seriesCallBar (shape : List Nat) (labels : List String) (i : Nat) :
    Except PyErr DrawCall :=
  match sliceSub shape i 0 with
  | Except.error e => Except.error e
  | Except.ok x =>
    match sliceSub shape i 1 with
    | Except.error e => Except.error e
    | Except.ok y =>
      match pyGet labels i with
      | Except.error e => Except.error e
      | Except.ok li => Except.ok (DrawCall.barC x y li)

/-- The `TYPE_BAR` branch of `__plot__` (lines 214-224); bar charts take
no format string. -/
def plotCallsBar (shape : List Nat) (labels : List String) :
    Except PyErr (List DrawCall) :=
  match pyIdxNeg2 shape with
  | Except.error e => Except.error e
  | Except.ok d2 =>
    if d2 = 2 then
      if shape.length = 2 then
        match sliceRow shape 0 with
        | Except.error e => Except.error e
        | Except.ok x =>
          match sliceRow shape 1 with
          | Except.error e => Except.error e
          | Except.ok y =>
            match pyGet labels 0 with
            | Except.error e => Except.error e
            | Except.ok l0 => Except.ok [DrawCall.barC x y l0]
      else
        match pyGet shape 0 with
        | Except.error e => Except.error e
        | Except.ok n => loopN (seriesCallBar shape labels) 0 n
    else Except.error PyErr.assertionError

/-- One iteration of the `TYPE_HISTOGRAM` rank-2 loop (line 235):
`self.ax.hist(self.data[i, :], label=self.labels[i])`. -/
def seriesCallHist (shape : List Nat) (labels : List String) (i : Nat) :
    Except PyErr DrawCall :=
  match sliceRow shape i with
  | Except.error e => Except.error e
  | Except.ok x =>
    match pyGet labels i with
    | Except.error e => Except.error e
    | Except.ok li => Except.ok (DrawCall.histC x li)

/-- The `TYPE_HISTOGRAM` branch of `__plot__` (lines 226-235): rank-1
data is drawn whole; otherwise the rank must be exactly 2 and each row
is drawn separately. -/
def plotCallsHist (shape : List Nat) (labels : List String) :
    Except PyErr (List DrawCall) :=
  if shape.length = 1 then
    match pyGet labels 0 with
    | Except.error e => Except.error e
    | Except.ok l0 => Except.ok [DrawCall.histC Slice.whole l0]
  else if shape.length = 2 then
    match pyGet shape 0 with
    | Except.error e => Except.error e
    | Except.ok n => loopN (seriesCallHist shape labels) 0 n
  else Except.error PyErr.assertionError

/-- The type dispatch of `__plot__` (lines 176-242): the four implemented
plot types draw; every other declared type (`TYPE_2DHISTOGRAM`,
`TYPE_CONTOUR`, `TYPE_IMAGE`, `TYPE_COLORMESH`, `TYPE_DATEPLOT`,
`TYPE_VECTOR`) falls through with no drawing at all. -/
def dispatchCalls (cfg : Config) : Except PyErr (List DrawCall) :=
  if cfg.plotType = 0 then plotCallsStd cfg.shape cfg.fmt cfg.labels
  else if cfg.plotType = 1 then plotCallsErr cfg.shape cfg.fmt cfg.labels
  else if cfg.plotType = 2 then plotCallsBar cfg.shape cfg.labels
  else if cfg.plotType = 3 then plotCallsHist cfg.shape cfg.labels
  else Except.ok []

/-- The outcome of one render step: the axes were cleared, these drawing
calls were issued, and the common post-processing (lines 244-283) was
applied. -/
structure RenderResult where
  cleared : Bool
  calls : List DrawCall
  xlimApplied : Option (ℚ × ℚ)
  ylimApplied : Option (ℚ × ℚ)
  xscale : Scale
  yscale : Scale
  xlabelApplied : Option (String × ℚ)
  ylabelApplied : Option (String × ℚ)
  titleApplied : Option (String × ℚ)
  legendApplied : Option (Nat × Nat)
  layoutDone : Bool
  toolbarShown : Bool
deriving DecidableEq

/-- The common post-processing of `__plot__` (lines 244-283) applied to
the drawing calls: limits if set, log/linear scales, axis/title labels
if non-empty, legend if enabled, layout pass, toolbar visibility. -/
def mkRender (cfg : Config) (calls : List DrawCall) : RenderResult :=
  { cleared := true
    calls := calls
    xlimApplied := cfg.xlim
    ylimApplied := cfg.ylim
    xscale := appliedScale cfg.logX
    yscale := appliedScale cfg.logY
    xlabelApplied := if cfg.xlabel = "" then none else some (cfg.xlabel, cfg.xlabelSize)
    ylabelApplied := if cfg.ylabel = "" then none else some (cfg.ylabel, cfg.ylabelSize)
    titleApplied := if cfg.title = "" then none else some (cfg.title, cfg.titleSize)
    legendApplied := if cfg.legend then some (cfg.legendLoc, cfg.legendFontSize) else none
    layoutDone := true
    toolbarShown := cfg.showToolbar }

/-- `Plot.__plot__`: clear, dispatch on the plot type, then post-process.
`layout` is the behavior of the external `fig.tight_layout()` call at
this moment (`some e` when the layout computation raises `e`).  Line 271
calls `tight_layout` with NO exception handler, so a layout exception
escapes the render step. -/
def plotStep (cfg : Config) (layout : Option PyErr) : Except PyErr RenderResult :=
  match dispatchCalls cfg with
  | Except.error e => Except.error e
  | Except.ok calls =>
    match layout with
    | some e => Except.error e
    | none => Except.ok (mkRender cfg calls)

/-- `Plot.__resize__` (lines 469-475): re-run `fig.tight_layout()` inside
`try: ... except ValueError: pass` — only `ValueError` is swallowed. -/
def resizeStep (layout : Option PyErr) : Except PyErr Unit :=
  match layout with
  | some PyErr.valueError => Except.ok ()
  | some e => Except.error e
  | none => Except.ok ()

/-! ## Construction (`Plot.__init__` and `Plot.__menubar__`) -/

/-- The `fmt` constructor argument, by its Python runtime type. -/
inductive FmtArg where
  | noneF
  | strF (s : String)
  | listF (l : List String)
  | tupleF (l : List String)
  | otherF
deriving DecidableEq

/-- The `labels` constructor argument, by its Python runtime type. -/
inductive LabelsArg where
  | noneL
  | strL (s : String)
  | listL (l : List String)
  | tupleL (l : List String)
  | otherL
deriving DecidableEq

/-- Lines 87-92 of `__init__`: a `str` fmt becomes a one-element list;
then `if isinstance(fmt, list) or isinstance(fmt, tuple) and
len(fmt) == self.data.shape[0]` stores `fmt`, otherwise `self.fmt = None`.
Note Python's operator precedence: the length check binds only to the
tuple test, so any list is stored regardless of its length. -/
def initFmt (fmtArg : FmtArg) (shape : List Nat) : Except PyErr (Option (List String)) :=
  let f :=
    match fmtArg with
    | FmtArg.strF s => FmtArg.listF [s]
    | x => x
  match f with
  | FmtArg.listF l => Except.ok (some l)
  | FmtArg.tupleF l =>
    match pyGet shape 0 with
    | Except.error e => Except.error e
    | Except.ok s0 => if l.length = s0 then Except.ok (some l) else Except.ok none
  | _ => Except.ok none

/-- The default labels `'Series 1'`, ..., `'Series n'` generated by the
loop `for i in range(self.data.shape[0])`. -/
def seriesNames (n : Nat) : List String :=
  (List.range n).map (fun i => "Series " ++ toString (i + 1))

/-- Lines 94-105 of `__init__`: with no `labels` argument, rank-2 data
gets the single default label `'Series 1'`, any other rank gets one
default label per entry of `shape[0]`; a `str` becomes a one-element
list; a list/tuple is stored as-is (no length check); anything else
leaves the `labels` attribute unset (`none`). -/
def initLabels (labelsArg : LabelsArg) (shape : List Nat) :
    Except PyErr (Option (List String)) :=
  match labelsArg with
  | LabelsArg.noneL =>
    if shape.length = 2 then Except.ok (some ["Series 1"])
    else
      match pyGet shape 0 with
      | Except.error e => Except.error e
      | Except.ok n => Except.ok (some (seriesNames n))
  | LabelsArg.strL s => Except.ok (some [s])
  | LabelsArg.listL l => Except.ok (some l)
  | LabelsArg.tupleL l => Except.ok (some l)
  | LabelsArg.otherL => Except.ok none

/-- `Plot.__menubar__` (the parts that read window state): computes the
series-rank gate `shape = self.data.shape[-2] if len(shape) >= 2 else 1`,
evaluates the histogram gate `shape == 1 or self.data.shape[0] ==
len(self.labels)` (short-circuit: the right side only runs when the
left is false), then builds one relabel menu entry per stored label.
Returns the relabel menu entry texts. -/
def menubarStep (shape : List Nat) (labelsF : Option (List String)) :
    Except PyErr (List String) :=
  let shp := (shapeNeg2 shape).getD 1
  if shp = 1 then pyAttr labelsF
  else
    match pyGet shape 0 with
    | Except.error e => Except.error e
    | Except.ok _ =>
      match pyAttr labelsF with
      | Except.error e => Except.error e
      | Except.ok _ => pyAttr labelsF

/-- The observable state of a successfully constructed plot window. -/
structure PlotState where
  fmt : Option (List String)
  labels : List String
  relabelEntries : List String
  render : RenderResult
deriving DecidableEq

/-- `Plot.__init__` with the display options left at their defaults:
assert the data is an `np.ndarray`, normalize `fmt` and `labels`, build
the menu bar, then run the initial `__plot__` with the requested plot
type.  Any exception escapes the constructor. -/
def PlotInit (isNd : Bool) (shape : List Nat) (fmtArg : FmtArg) (labelsArg : LabelsArg)
    (plotType : Nat) (layout : Option PyErr) : Except PyErr PlotState :=
  if isNd then
    match initFmt fmtArg shape with
    | Except.error e => Except.error e
    | Except.ok fmt =>
      match initLabels labelsArg shape with
      | Except.error e => Except.error e
      | Except.ok labelsF =>
        match menubarStep shape labelsF with
        | Except.error e => Except.error e
        | Except.ok entries =>
          match pyAttr labelsF with
          | Except.error e => Except.error e
          | Except.ok labels =>
            match plotStep { shape := shape, fmt := fmt, labels := labels,
                             plotType := plotType } layout with
            | Except.error e => Except.error e
            | Except.ok render =>
              Except.ok { fmt := fmt, labels := labels,
                          relabelEntries := entries, render := render }
  else Except.error PyErr.assertionError

/-- Whether an `Except` computation completed without raising. -/
def exOk {ε α : Type} : Except ε α → Bool
  | Except.ok _ => true
  | Except.error _ => false

/-- The exact success condition of default construction (derived below):
the data is an ndarray, `shape[-2]` exists and equals 2, and the initial
`TYPE_PLOT` render's per-series loop stays in bounds — automatic for
rank 2 and rank 3, but for rank ≥ 4 it needs an empty first dimension or
a second dimension of size at least 2 (the loop indexes axis 1 at 0 and
1). -/
def wellFormedDefault (isNd : Bool) (shape : List Nat) : Bool :=
  isNd && decide (shapeNeg2 shape = some 2) &&
    (decide (shape.length = 2) || decide (shape.headD 0 = 0) ||
      decide (2 ≤ shape.getD 1 0))

/-! ## Relabelling (`Plot.__relabel__`) -/

/-- The label-related state of a plot window: the stored series labels,
the texts of the relabel menu entries, and a redraw counter. -/
structure WindowLabels where
  labels : List String
  relabelEntries : List String
  redraws : Nat
deriving DecidableEq

/-- `Plot.__relabel__(i)` (lines 482-488) given the dialog's published
result: on cancel (`None`) nothing happens; on confirm the stored label
at `i` is assigned, `__plot__` runs, and the `i`-th menu entry text is
set to the same new label. -/
def relabelStep (w : WindowLabels) (i : Nat) (res : Option (String × Option ℚ)) :
    WindowLabels :=
  match res with
  | none => w
  | some (t, _) =>
    { labels := w.labels.set i t
      relabelEntries := w.relabelEntries.set i t
      redraws := w.redraws + 1 }

/-! ## Helper lemmas -/

/-- `__menubar__` itself never raises once the shape is nonempty and the
labels attribute is set: it returns one relabel entry per stored label. -/
theorem menubarStep_ok (a : Nat) (l : List Nat) (ls : List String) :
    menubarStep (a :: l) (some ls) = Except.ok ls := by
  unfold menubarStep
  by_cases h : (shapeNeg2 (a :: l)).getD 1 = 1 <;> simp [h, pyGet, pyAttr]

/-- A loop whose first iteration raises propagates that exception. -/
theorem loopN_error_head (f : Nat → Except PyErr DrawCall) (i k : Nat) (e : PyErr)
    (hk : k ≠ 0) (he : f i = Except.error e) : loopN f i k = Except.error e := by
  cases k with
  | zero => exact absurd rfl hk
  | succ k => simp [loopN, he]

/-- A loop all of whose iterations succeed succeeds. -/
theorem loopN_ok (f : Nat → Except PyErr DrawCall) :
    ∀ (k i : Nat), (∀ j, i ≤ j → j < i + k → exOk (f j) = true) →
      exOk (loopN f i k) = true := by
  intro k
  induction k with
  | zero => intro i _; simp [loopN, exOk]
  | succ k ih =>
    intro i h
    have h0 : exOk (f i) = true := h i (Nat.le_refl i) (by omega)
    cases hf : f i with
    | error e => rw [hf] at h0; simp [exOk] at h0
    | ok c =>
      have hrest : exOk (loopN f (i + 1) k) = true := by
        exact ih (i + 1) (fun j hj1 hj2 => h j (by omega) (by omega))
      cases hl : loopN f (i + 1) k with
      | error e => rw [hl] at hrest; simp [exOk] at hrest
      | ok rest => simp [loopN, hf, hl, exOk]

/-- `shapeNeg2` of a list of length at least 2 is always present. -/
theorem shapeNeg2_isSome (l : List Nat) (h : 2 ≤ l.length) :
    ∃ v, shapeNeg2 l = some v := by
  match l with
  | [] => simp at h
  | [_] => simp at h
  | [x, y] => exact ⟨x, rfl⟩
  | a :: b :: c :: rest =>
    obtain ⟨v, hv⟩ := shapeNeg2_isSome (b :: c :: rest) (by simp)
    exact ⟨v, by simpa [shapeNeg2] using hv⟩

/-! ## Claim C3: per-series dispatch, and the errorbar slicing defect -/

/-- A 3-series errorbar configuration with per-series format strings. -/
def cfgErrFmt : Config :=
  { shape := [3, 2, 4], fmt := some ["r", "g", "b"], labels := ["A", "B", "C"],
    plotType := 1 }

/-- Claim C3 (code defect): in the multi-series errorbar branch with a
format list, every drawing call passes the slices `data[0, :]` and
`data[1, :]` — series `i` is NOT drawn from `data[i]` (only `fmt[i]` and
`labels[i]` vary), unlike the corresponding `TYPE_PLOT` render of the
same data, which correctly passes `data[i, 0, :]` and `data[i, 1, :]`. -/
theorem errorbar_fmt_ignores_series_index :
    dispatchCalls cfgErrFmt = Except.ok
      [ DrawCall.errorbarC (Slice.row 0) (Slice.row 1) (some "r") "A",
        DrawCall.errorbarC (Slice.row 0) (Slice.row 1) (some "g") "B",
        DrawCall.errorbarC (Slice.row 0) (Slice.row 1) (some "b") "C" ] ∧
    dispatchCalls { cfgErrFmt with plotType := 0 } = Except.ok
      [ DrawCall.plotC (Slice.sub 0 0) (Slice.sub 0 1) (some "r") "A",
        DrawCall.plotC (Slice.sub 1 0) (Slice.sub 1 1) (some "g") "B",
        DrawCall.plotC (Slice.sub 2 0) (Slice.sub 2 1) (some "b") "C" ] :=
  ⟨rfl, rfl⟩

/-! ## Claim C4: fmt length-mismatch fallback -/

/-- Counterexample to C4 as stated: a format LIST of length 3 for 2
series (`shape[0] = 2`) is stored verbatim, not replaced by `None`. -/
theorem fmt_mismatched_list_stored_cex :
    initFmt (FmtArg.listF ["r", "g", "b"]) [2, 5] = Except.ok (some ["r", "g", "b"]) ∧
    (["r", "g", "b"] : List String).length ≠ 2 ∧
    pyGet [2, 5] 0 = Except.ok 2 :=
  ⟨rfl, by decide, rfl⟩

/-- Claim C4 (amended): the silent fallback to default formatting applies
only to tuples — a tuple whose length differs from the series count is
replaced by `None`, while a list is stored regardless of its length
(Python's `or`/`and` precedence ties the length check to the tuple test
only). -/
theorem fmt_fallback_tuple_only (l : List String) (shape : List Nat) (s0 : Nat)
    (h0 : pyGet shape 0 = Except.ok s0) (h : l.length ≠ s0) :
    initFmt (FmtArg.tupleF l) shape = Except.ok none ∧
    initFmt (FmtArg.listF l) shape = Except.ok (some l) := by
  constructor
  · unfold initFmt
    rw [h0]
    simp [h]
  · rfl

/-- Witness for the amended C4 at the counterexample's input. -/
theorem fmt_fallback_tuple_only_witness :
    initFmt (FmtArg.tupleF ["r", "g", "b"]) [2, 5] = Except.ok none ∧
    initFmt (FmtArg.listF ["r", "g", "b"]) [2, 5] = Except.ok (some ["r", "g", "b"]) :=
  fmt_fallback_tuple_only ["r", "g", "b"] [2, 5] 2 rfl (by decide)

/-! ## Claim C6: unimplemented plot types render an empty, well-defined state -/

/-- Claim C6: selecting any plot type without a rendering implementation
(`TYPE_2DHISTOGRAM` = 4, `TYPE_CONTOUR` = 5, `TYPE_IMAGE` = 6,
`TYPE_COLORMESH` = 7, `TYPE_DATEPLOT` = 8, `TYPE_VECTOR` = 9) does not
raise: the render step clears the axes, issues no drawing call, and
still applies the common post-processing (limits, scales, labels,
legend, layout, toolbar). -/
theorem unimplemented_type_renders_empty (cfg : Config)
    (h : cfg.plotType ∈ [4, 5, 6, 7, 8, 9]) :
    plotStep cfg none = Except.ok (mkRender cfg []) ∧
    (mkRender cfg []).calls = [] ∧
    (mkRender cfg []).cleared = true ∧
    (mkRender cfg []).xscale = appliedScale cfg.logX ∧
    (mkRender cfg []).yscale = appliedScale cfg.logY ∧
    (mkRender cfg []).xlimApplied = cfg.xlim ∧
    (mkRender cfg []).ylimApplied = cfg.ylim ∧
    (mkRender cfg []).legendApplied =
      (if cfg.legend then some (cfg.legendLoc, cfg.legendFontSize) else none) ∧
    (mkRender cfg []).layoutDone = true := by
  refine ⟨?_, rfl, rfl, rfl, rfl, rfl, rfl, rfl, rfl⟩
  simp only [List.mem_cons, List.mem_singleton, List.not_mem_nil, or_false] at h
  rcases h with h | h | h | h | h | h <;>
    simp [plotStep, dispatchCalls, h]

/-- A concrete contour-type window configuration. -/
def cfgContour : Config :=
  { shape := [7], labels := ["Series 1"], plotType := 5, xlabel := "x",
    legend := true }

/-- Witness for C6 at the contour plot type. -/
theorem unimplemented_type_renders_empty_witness :
    plotStep cfgContour none = Except.ok (mkRender cfgContour []) ∧
    (mkRender cfgContour []).calls = [] :=
  ⟨(unimplemented_type_renders_empty cfgContour (by decide)).1,
   (unimplemented_type_renders_empty cfgContour (by decide)).2.1⟩

/-! ## Claim C7: log-scale double toggle -/

/-- Claim C7: the render step sets an axis to the log scale exactly when
its log flag is set and to the linear scale exactly when it is cleared,
so toggling a log flag twice leaves the rendered scale unchanged. -/
theorem log_toggle_involutive (cfg : Config) (calls : List DrawCall) :
    (mkRender cfg calls).xscale = appliedScale cfg.logX ∧
    (mkRender cfg calls).yscale = appliedScale cfg.logY ∧
    appliedScale (toggleLog (toggleLog cfg.logX)) = appliedScale cfg.logX ∧
    appliedScale (toggleLog (toggleLog cfg.logY)) = appliedScale cfg.logY ∧
    (appliedScale cfg.logX = Scale.log ↔ cfg.logX = true) ∧
    (appliedScale cfg.logX = Scale.linear ↔ cfg.logX = false) ∧
    (appliedScale cfg.logY = Scale.log ↔ cfg.logY = true) ∧
    (appliedScale cfg.logY = Scale.linear ↔ cfg.logY = false) := by
  refine ⟨rfl, rfl, ?_, ?_, ?_, ?_, ?_, ?_⟩ <;>
    cases hx : cfg.logX <;> cases hy : cfg.logY <;>
      simp [appliedScale, toggleLog]

/-! ## Claim C9: layout-fit exception handling -/

/-- Counterexample to C9 as stated: the layout-fit pass at the end of the
render step (line 271) has no exception handler, so a `ValueError`
raised by `tight_layout` escapes `__plot__`. -/
theorem render_layout_error_propagates_cex :
    plotStep cfgContour (some PyErr.valueError) = Except.error PyErr.valueError :=
  rfl

/-- Claim C9 (amended): only the resize handler guards the layout
recalculation, and it swallows only `ValueError`; any other exception
during resize propagates, and the render step's layout-fit pass
propagates every layout exception (shown for unimplemented-type
configurations, whose drawing phase cannot itself raise). -/
theorem layout_exception_handling (e : PyErr) (cfg : Config)
    (h : cfg.plotType ∈ [4, 5, 6, 7, 8, 9]) :
    resizeStep none = Except.ok () ∧
    resizeStep (some PyErr.valueError) = Except.ok () ∧
    (e ≠ PyErr.valueError → resizeStep (some e) = Except.error e) ∧
    plotStep cfg (some e) = Except.error e := by
  refine ⟨rfl, rfl, ?_, ?_⟩
  · intro he
    cases e <;> simp [resizeStep] at he ⊢
  · simp only [List.mem_cons, List.mem_singleton, List.not_mem_nil, or_false] at h
    rcases h with h | h | h | h | h | h <;>
      simp [plotStep, dispatchCalls, h]

/-- Witness for the amended C9: a non-`ValueError` layout exception
(modelled by `otherError`) propagates from both the resize handler and
the render step of a contour-type window. -/
theorem layout_exception_handling_witness :
    resizeStep (some PyErr.otherError) = Except.error PyErr.otherError ∧
    plotStep cfgContour (some PyErr.otherError) = Except.error PyErr.otherError :=
  ⟨(layout_exception_handling PyErr.otherError cfgContour (by decide)).2.2.1 (by decide),
   (layout_exception_handling PyErr.otherError cfgContour (by decide)).2.2.2⟩

/-! ## Claim C10: default labels depend on the data's rank -/

/-- Claim C10: with no `labels` argument the defaults are rank-dependent:
rank-2 data gets the single label `'Series 1'`, while rank-1 data (the
histogram case) gets one label per array ELEMENT — `'Series 1'` through
`'Series n'` where `n = shape[0]` is the number of samples — and the
relabel menu gets one entry per element. -/
theorem default_labels_rank_dependent (n a b : Nat) :
    initLabels LabelsArg.noneL [n] = Except.ok (some (seriesNames n)) ∧
    (seriesNames n).length = n ∧
    initLabels LabelsArg.noneL [a, b] = Except.ok (some ["Series 1"]) ∧
    menubarStep [n] (some (seriesNames n)) = Except.ok (seriesNames n) ∧
    (∀ i, i < n → (seriesNames n).get? i = some ("Series " ++ toString (i + 1))) := by
  refine ⟨rfl, by simp [seriesNames], rfl, menubarStep_ok n [] (seriesNames n), ?_⟩
  intro i hi
  simp [seriesNames, List.getElem?_map, List.getElem?_range hi]

/-- Witness for C10 at a 3-sample 1-D array and a 2-by-4 2-D array. -/
theorem default_labels_rank_dependent_witness :
    initLabels LabelsArg.noneL [3] = Except.ok (some ["Series 1", "Series 2", "Series 3"]) ∧
    initLabels LabelsArg.noneL [2, 4] = Except.ok (some ["Series 1"]) ∧
    (seriesNames 3).get? 2 = some "Series 3" := by
  have h := default_labels_rank_dependent 3 2 4
  refine ⟨?_, h.2.2.1, ?_⟩
  · have := h.1
    simpa [seriesNames] using this
  · have := h.2.2.2.2 2 (by decide)
    simpa using this

/-! ## Claim C8: relabelling a single series -/

/-- Claim C8: a confirmed relabel dialog for series `i` updates only the
stored label at `i`, sets the `i`-th relabel menu entry to the same new
text, and triggers exactly one redraw; a cancelled dialog changes
nothing. -/
theorem relabel_updates_only_index (w : WindowLabels) (i : Nat)
    (res : Option (String × Option ℚ))
    (hi : i < w.labels.length) (hm : i < w.relabelEntries.length) :
    (res = none → relabelStep w i res = w) ∧
    (∀ t fs, res = some (t, fs) →
      (relabelStep w i res).labels.get? i = some t ∧
      (∀ j, j ≠ i → (relabelStep w i res).labels.get? j = w.labels.get? j) ∧
      (relabelStep w i res).relabelEntries.get? i = some t ∧
      (∀ j, j ≠ i → (relabelStep w i res).relabelEntries.get? j = w.relabelEntries.get? j) ∧
      (relabelStep w i res).redraws = w.redraws + 1) := by
  constructor
  · intro h
    rw [h]
    rfl
  · intro t fs h
    rw [h]
    refine ⟨?_, ?_, ?_, ?_, rfl⟩
    · simp [relabelStep, List.getElem?_set_self hi]
    · intro j hj
      simp [relabelStep, List.getElem?_set_ne (fun he => hj he.symm)]
    · simp [relabelStep, List.getElem?_set_self hm]
    · intro j hj
      simp [relabelStep, List.getElem?_set_ne (fun he => hj he.symm)]

/-- Witness for C8: relabelling series index 1 of a 3-series window to
"Shot A" changes only that label and menu entry. -/
theorem relabel_updates_only_index_witness :
    (relabelStep ⟨["S1", "S2", "S3"], ["S1", "S2", "S3"], 0⟩ 1
        (some ("Shot A", none))).labels.get? 1 = some "Shot A" ∧
    (relabelStep ⟨["S1", "S2", "S3"], ["S1", "S2", "S3"], 0⟩ 1
        (some ("Shot A", none))).labels.get? 0 = some "S1" ∧
    (relabelStep ⟨["S1", "S2", "S3"], ["S1", "S2", "S3"], 0⟩ 1
        (some ("Shot A", none))).relabelEntries.get? 1 = some "Shot A" ∧
    (relabelStep ⟨["S1", "S2", "S3"], ["S1", "S2", "S3"], 0⟩ 1
        (some ("Shot A", none))).redraws = 1 := by
  have h := relabel_updates_only_index ⟨["S1", "S2", "S3"], ["S1", "S2", "S3"], 0⟩ 1
    (some ("Shot A", none)) (by decide) (by decide)
  obtain ⟨h1, h2, h3, h4, h5⟩ := h.2 "Shot A" none rfl
  exact ⟨h1, by simpa using h2 0 (by decide), h3, h5⟩

/-! ## Claim C5: construction success and failure -/

/-- The default labels list has one entry per value of the loop index. -/
theorem seriesNames_length (n : Nat) : (seriesNames n).length = n := by
  simp [seriesNames]

/-- One iteration of the default-construction render loop succeeds when
the series index is in bounds, the second dimension admits the indexes 0
and 1, and a label exists for the series. -/
theorem seriesCallStd_ok (a b : Nat) (l : List Nat) (labels : List String) (j : Nat)
    (hj : j < a) (hb : 2 ≤ b) (hlab : j < labels.length) :
    exOk (seriesCallStd (a :: b :: l) none labels j) = true := by
  have hb0 : 0 < b := by omega
  have hb1 : 1 < b := by omega
  cases hg : labels[j]? with
  | none =>
    rw [List.getElem?_eq_none_iff] at hg
    omega
  | some lab =>
    simp [seriesCallStd, sliceSub, pyGet, hj, hb0, hb1, hg, exOk]

/-- Counterexample to C5 as stated: the rank-4 array of shape
`(1, 1, 2, 5)` has `shape[-2] == 2` (well-shaped for the default line
plot by the claim's own criterion), yet construction raises
`IndexError`: the render loop evaluates `data[i, 1, :]` and axis 1 has
size 1. -/
theorem construction_wellshaped_fails_cex :
    shapeNeg2 [1, 1, 2, 5] = some 2 ∧
    PlotInit true [1, 1, 2, 5] FmtArg.noneF LabelsArg.noneL 0 none =
      Except.error PyErr.indexError :=
  ⟨rfl, rfl⟩

/-- Claim C5 (amended): default construction (no fmt, no labels, default
`TYPE_PLOT`) fails exactly when the data is not an ndarray, or
`shape[-2]` is missing or differs from 2, or — for rank ≥ 3 data — the
render loop goes out of bounds (nonempty first dimension with second
dimension smaller than 2, which is automatic only for rank 3); every
other numeric array constructs successfully. -/
theorem construction_ok_iff (isNd : Bool) (shape : List Nat) :
    exOk (PlotInit isNd shape FmtArg.noneF LabelsArg.noneL 0 none) =
      wellFormedDefault isNd shape := by
  cases isNd with
  | false => rfl
  | true =>
    rcases shape with _ | ⟨a, _ | ⟨b, _ | ⟨c, rest⟩⟩⟩
    · rfl
    · rfl
    · by_cases ha2 : a = 2
      · subst ha2; rfl
      · by_cases ha1 : a = 1
        · subst ha1; rfl
        · simp [PlotInit, initFmt, initLabels, menubarStep, plotStep, dispatchCalls,
            plotCallsStd, pyIdxNeg2, shapeNeg2, pyGet, pyAttr, exOk,
            wellFormedDefault, ha1, ha2]
    · obtain ⟨v, hv⟩ := shapeNeg2_isSome (b :: c :: rest) (by simp)
      have hshape : shapeNeg2 (a :: b :: c :: rest) = some v := by
        simpa [shapeNeg2] using hv
      have hlen : ¬ (a :: b :: c :: rest).length = 2 := by
        intro h
        simp [List.length_cons] at h
      have hlab : initLabels LabelsArg.noneL (a :: b :: c :: rest) =
          Except.ok (some (seriesNames a)) := by
        simp [initLabels, hlen, pyGet]
      by_cases hv2 : v = 2
      · subst hv2
        cases a with
        | zero =>
          have hcalls : plotCallsStd (0 :: b :: c :: rest) none (seriesNames 0) =
              Except.ok [] := by
            simp [plotCallsStd, pyIdxNeg2, hshape, hlen, pyGet, loopN]
          simp [PlotInit, initFmt, hlab, menubarStep_ok, pyAttr, plotStep,
            dispatchCalls, hcalls, exOk, wellFormedDefault, hshape]
        | succ n =>
          by_cases hb : 2 ≤ b
          · have hloop : exOk (loopN
                (seriesCallStd (Nat.succ n :: b :: c :: rest) none (seriesNames (Nat.succ n)))
                0 (Nat.succ n)) = true := by
              refine loopN_ok _ (Nat.succ n) 0 (fun j hj1 hj2 => ?_)
              exact seriesCallStd_ok (Nat.succ n) b (c :: rest) (seriesNames (Nat.succ n)) j
                (by omega) hb (by rw [seriesNames_length]; omega)
            cases hl : loopN
                (seriesCallStd (Nat.succ n :: b :: c :: rest) none (seriesNames (Nat.succ n)))
                0 (Nat.succ n) with
            | error e => rw [hl] at hloop; simp [exOk] at hloop
            | ok cs =>
              have hcalls : plotCallsStd (Nat.succ n :: b :: c :: rest) none
                  (seriesNames (Nat.succ n)) = Except.ok cs := by
                simp [plotCallsStd, pyIdxNeg2, hshape, hlen, pyGet, hl]
              simp [PlotInit, initFmt, hlab, menubarStep_ok, pyAttr, plotStep,
                dispatchCalls, hcalls, exOk, wellFormedDefault, hshape, hlen, hb,
                List.getD]
          · have hb01 : b = 0 ∨ b = 1 := by omega
            have hf : seriesCallStd (Nat.succ n :: b :: c :: rest) none
                (seriesNames (Nat.succ n)) 0 = Except.error PyErr.indexError := by
              rcases hb01 with hb0 | hb1
              · subst hb0
                simp [seriesCallStd, sliceSub, pyGet]
              · subst hb1
                simp [seriesCallStd, sliceSub, pyGet]
            have hloop : loopN
                (seriesCallStd (Nat.succ n :: b :: c :: rest) none (seriesNames (Nat.succ n)))
                0 (Nat.succ n) = Except.error PyErr.indexError :=
              loopN_error_head _ 0 (Nat.succ n) PyErr.indexError (by omega) hf
            have hcalls : plotCallsStd (Nat.succ n :: b :: c :: rest) none
                (seriesNames (Nat.succ n)) = Except.error PyErr.indexError := by
              simp [plotCallsStd, pyIdxNeg2, hshape, hlen, pyGet, hloop]
            simp [PlotInit, initFmt, hlab, menubarStep_ok, pyAttr, plotStep,
              dispatchCalls, hcalls, exOk, wellFormedDefault, hshape, hlen, hb,
              List.getD]
      · have hcalls : plotCallsStd (a :: b :: c :: rest) none (seriesNames a) =
            Except.error PyErr.assertionError := by
          simp [plotCallsStd, pyIdxNeg2, hshape, hv2]
        simp [PlotInit, initFmt, hlab, menubarStep_ok, pyAttr, plotStep,
          dispatchCalls, hcalls, exOk, wellFormedDefault, hshape, hv2]

end MplWindow
